import Mathlib

/-!
Verification of the news-site frontend (webhook-driven revalidation pipeline).

Shallow embedding of the repository's handlers and scripts:
* `Revalidate` — `src/app/api/revalidate/route.ts` (app-router GET endpoint).
* `PagesRevalidate` — `src/pages/api/revalidate.ts` (pages-router handler).
* `Webhook` — `src/app/api/webhook/route.ts` (POST handler).
* `Upload` — `src/scripts/upload-to-s3.ts`.
* `Articles` — `src/app/lib/api/articles.ts`.

Environment variables are modelled as `Option String` (unset = `none`);
JavaScript string truthiness (`""` and `null`/`undefined` are falsy) is
modelled by `truthy`. Side effects (calls to `revalidatePath`,
`revalidateTag`, S3 uploads) are returned as explicit traces.
-/

/-- JavaScript truthiness of a nullable string: `null`/`undefined` and the
empty string are falsy, every other string is truthy. -/
def truthy : Option String → Bool
  | none => false
  | some s => s ≠ ""

/-- The JavaScript `a || b` operator on nullable strings: yields `a` when `a`
is truthy, otherwise `b`. -/
def jsOr (a b : Option String) : Option String :=
  if truthy a then a else b

namespace Revalidate

/-- The query parameters of a GET request to `/api/revalidate`
(`searchParams.get` returns `null` for an absent parameter, `""` for an
empty one). -/
structure Request where
  secret : Option String
  path : Option String
deriving Repr, DecidableEq

/-- The environment configuration read by the route
(`process.env.REVALIDATION_SECRET`). -/
structure Env where
  revalidationSecret : Option String
deriving Repr, DecidableEq

/-- `isValidRequest` from `src/app/api/revalidate/route.ts`:
rejects when `REVALIDATION_SECRET` is unset/empty (`!expectedSecret`), when
the `secret` query parameter is absent/empty (`!secret`), or when the two
strings differ; accepts otherwise. -/
def isValidRequest (env : Env) (r : Request) : Bool :=
  if ¬ truthy env.revalidationSecret then false
  else if ¬ truthy r.secret then false
  else if r.secret ≠ env.revalidationSecret then false
  else true

/-- The JSON response produced by the GET handler. Fields that a given
branch does not set are `none`. -/
structure GetResponse where
  status : Nat
  revalidated : Option Bool
  path : Option String
  error : Option String
deriving Repr, DecidableEq

/-- `GET` from `src/app/api/revalidate/route.ts`. `revalidateFails = some m`
models `revalidatePath` throwing an error with message `m` (caught by the
handler's try/catch and reported as a 500); `none` models the call
succeeding. The second component is the trace of paths passed to
`revalidatePath`. -/
def GET (env : Env) (r : Request) (revalidateFails : Option String) :
    GetResponse × List String :=
  if ¬ isValidRequest env r then
    (⟨401, none, none, some "Token inválido"⟩, [])
  else
    let path := match r.path with
      | some p => if p = "" then "/" else p
      | none => "/"
    match revalidateFails with
    | none => (⟨200, some true, some path, none⟩, [path])
    | some msg => (⟨500, some false, none, some msg⟩, [path])

end Revalidate

namespace PagesRevalidate

/-- The query parameters of a request to the pages-router
`src/pages/api/revalidate.ts` handler. -/
structure ApiRequest where
  secret : Option String
  path : Option String
deriving Repr, DecidableEq

/-- The JSON response of the pages-router handler. -/
structure ApiResponse where
  status : Nat
  message : Option String
  revalidated : Option Bool
  path : Option String
  error : Option String
deriving Repr, DecidableEq

/-- `handler` from `src/pages/api/revalidate.ts`:
`req.query.secret !== process.env.REVALIDATION_SECRET` compares the raw
values (both possibly undefined, modelled by `Option` equality); a missing
or empty `path` (`!path`) yields a 400 rejection before any revalidation;
otherwise `res.revalidate(path)` runs (`revalidateFails` models it
throwing) and the handler answers 200 `{revalidated:true, path}` or a 500.
The second component is the trace of paths passed to `res.revalidate`. -/
def handler (env : Revalidate.Env) (req : ApiRequest)
    (revalidateFails : Option String) : ApiResponse × List String :=
  if req.secret ≠ env.revalidationSecret then
    (⟨401, some "Invalid token", none, none, none⟩, [])
  else if ¬ truthy req.path then
    (⟨400, some "Path is required", none, none, none⟩, [])
  else
    let path := req.path.getD ""
    match revalidateFails with
    | none => (⟨200, none, some true, some path, none⟩, [path])
    | some msg => (⟨500, some "Error revalidating", none, none, some msg⟩, [path])

end PagesRevalidate

namespace Webhook

/-- The `entry` object of a webhook body (`src/app/api/webhook/route.ts`,
interface `WebhookBody`). Only the fields the handler reads are kept. -/
structure Entry where
  slug : Option String
deriving Repr, DecidableEq

/-- The parsed JSON body of a webhook request. -/
structure WebhookBody where
  event : Option String
  model : Option String
  entry : Option Entry
deriving Repr, DecidableEq

/-- A webhook request: the three token header variants, the `token` query
parameter, and the JSON body (`none` when `request.json()` throws, i.e. the
body is unreadable; an empty JSON object is `some ⟨none, none, none⟩`). -/
structure Request where
  headerXWebhookToken : Option String
  headerWebhookToken : Option String
  headerXStrapiWebhookToken : Option String
  queryToken : Option String
  body : Option WebhookBody
deriving Repr, DecidableEq

/-- Environment configuration read by the webhook route:
`process.env.WEBHOOK_TOKEN` and `process.env.NODE_ENV`. -/
structure Env where
  webhookToken : Option String
  nodeEnv : Option String
deriving Repr, DecidableEq

/-- The token extraction in `validateWebhook`:
`headers.get('x-webhook-token') || headers.get('webhook-token') ||
headers.get('x-strapi-webhook-token') || searchParams.get('token')`,
with the JavaScript `||` falling through falsy (absent or empty) values. -/
def getToken (r : Request) : Option String :=
  jsOr r.headerXWebhookToken
    (jsOr r.headerWebhookToken
      (jsOr r.headerXStrapiWebhookToken r.queryToken))

/-- `validateWebhook` from `src/app/api/webhook/route.ts`:
fails when `WEBHOOK_TOKEN` is unset/empty (`!expectedToken`), then in
development mode accepts a request with no (falsy) token, and otherwise
requires the supplied token to equal the configured one
(`token !== expectedToken`, a strict comparison of the nullable token
against the configured string). -/
def validateWebhook (env : Env) (r : Request) : Bool :=
  let token := getToken r
  if ¬ truthy env.webhookToken then false
  else if env.nodeEnv = some "development" ∧ ¬ truthy token then true
  else if token ≠ env.webhookToken then false
  else true

/-- One framework cache-invalidation call made by the handler. -/
inductive RevalidateCall where
  | path (p : String)
  | tag (t : String)
deriving Repr, DecidableEq

/-- The JSON response of the webhook POST handler; fields a branch does not
set are `none`. -/
structure PostResponse where
  status : Nat
  success : Option Bool
  revalidated : Option Bool
  message : Option String
  error : Option String
  paths : Option (List String)
deriving Repr, DecidableEq

/-- The slug extraction in `POST`: `articleSlug` starts as `''` and is
overwritten only when `body.entry && body.entry.slug` is truthy. -/
def articleSlugOf (body : WebhookBody) : String :=
  match body.entry with
  | some e => match e.slug with
    | some s => s
    | none => ""
  | none => ""

/-- The four invalidations every successful branch performs:
`revalidatePath('/')`, `revalidatePath('/news')`, `revalidateTag('articles')`,
`revalidateTag('home')`. -/
def baseCalls : List RevalidateCall :=
  [.path "/", .path "/news", .tag "articles", .tag "home"]

/-- The slug-specific invalidations, made only when `articleSlug` is a
non-empty string: `revalidatePath('/news/'+slug)` and
`revalidateTag('article-'+slug)`. -/
def slugCalls (articleSlug : String) : List RevalidateCall :=
  if articleSlug ≠ "" then
    [.path ("/news/" ++ articleSlug), .tag ("article-" ++ articleSlug)]
  else []

/-- `POST` from `src/app/api/webhook/route.ts`. The first component is the
response, the second the trace of `revalidatePath`/`revalidateTag` calls.
The handler: validates the token (401 on failure); if the body is
unreadable, revalidates everything in development and answers 400 in
production; in development revalidates everything plus the slug pages; in
production revalidates only for the four `entry.*` events on the
`article`/`articles` models (adding the slug pages when a slug is present)
and otherwise answers success without any invalidation. -/
def POST (env : Env) (r : Request) : PostResponse × List RevalidateCall :=
  if ¬ validateWebhook env r then
    (⟨401, none, none, none, some "Token inválido", none⟩, [])
  else
    match r.body with
    | none =>
      if env.nodeEnv = some "development" then
        (⟨200, some true, some true,
          some "Páginas revalidadas (modo desarrollo, sin cuerpo)", none, none⟩,
         baseCalls)
      else
        (⟨400, none, none, none,
          some "No se pudo leer el cuerpo de la solicitud", none⟩, [])
    | some body =>
      let articleSlug := articleSlugOf body
      if env.nodeEnv = some "development" then
        (⟨200, some true, some true,
          some "Páginas revalidadas (modo desarrollo)", none, none⟩,
         baseCalls ++ slugCalls articleSlug)
      else if (body.event = some "entry.create" ∨ body.event = some "entry.update" ∨
               body.event = some "entry.publish" ∨ body.event = some "entry.unpublish") ∧
              (body.model = some "article" ∨ body.model = some "articles") then
        (⟨200, some true, some true,
          some "Páginas revalidadas exitosamente", none,
          some (if articleSlug ≠ "" then ["/", "/news", "/news/" ++ articleSlug]
                else ["/", "/news"])⟩,
         baseCalls ++ slugCalls articleSlug)
      else
        (⟨200, some true, none,
          some "Evento recibido pero no requiere revalidación", none, none⟩, [])

end Webhook

namespace Upload

/-- Does `lead` occur at the start of `l`? (Character-list version of a
string prefix test, used to state "is an image type".) -/
def leads : List Char → List Char → Bool
  | _, [] => true
  | [], _ :: _ => false
  | a :: as, b :: bs => a = b && leads as bs

/-- Does `needle` occur contiguously somewhere in `hay`? -/
def occursIn (hay needle : List Char) : Bool :=
  match hay with
  | [] => needle.isEmpty
  | _ :: t => leads hay needle || occursIn t needle

/-- `contentType.includes(sub)` of JavaScript: substring containment. -/
def strContains (s sub : String) : Bool :=
  occursIn s.toList sub.toList

/-- `sub` starts the string `s`. -/
def strLeads (s sub : String) : Bool :=
  leads s.toList sub.toList

/-- Characters of a reversed name up to the first dot: `none` when there is
no dot at all. -/
def revExt : List Char → Option (List Char)
  | [] => none
  | c :: rest => if c = '.' then some [] else (revExt rest).map (c :: ·)

/-- The extension of a file path: the segment after the last dot, `""` when
the name has no dot. -/
def extOf (p : String) : String :=
  match revExt p.toList.reverse with
  | none => ""
  | some cs => String.mk cs.reverse

/-- `mime.lookup` of the `mime-types` package, for the extensions a Next.js
static export produces; `none` models the lookup returning `false`. -/
def mimeLookup (p : String) : Option String :=
  match extOf p with
  | "html" => some "text/html"
  | "htm" => some "text/html"
  | "css" => some "text/css"
  | "js" => some "application/javascript"
  | "json" => some "application/json"
  | "txt" => some "text/plain"
  | "xml" => some "application/xml"
  | "png" => some "image/png"
  | "jpg" => some "image/jpeg"
  | "jpeg" => some "image/jpeg"
  | "gif" => some "image/gif"
  | "svg" => some "image/svg+xml"
  | "webp" => some "image/webp"
  | "avif" => some "image/avif"
  | "woff2" => some "font/woff2"
  | _ => none

/-- `mime.lookup(filePath) || 'application/octet-stream'` from
`uploadFileToS3`. -/
def contentTypeOf (p : String) : String :=
  (mimeLookup p).getD "application/octet-stream"

/-- The `CacheControl` ternary chain of `uploadFileToS3`
(`src/scripts/upload-to-s3.ts`): image content types get the one-year
immutable policy, HTML gets no-cache, everything else one week. -/
def cacheControl (contentType : String) : String :=
  if strContains contentType "image/" then "public, max-age=31536000, immutable"
  else if strContains contentType "text/html" then "public, max-age=0, must-revalidate"
  else "public, max-age=604800"

/-- A local file tree entry as seen by `uploadDirectoryToS3`: a file (with a
flag saying whether its S3 upload fails) or a subdirectory. -/
inductive FsEntry where
  | file (name : String) (uploadFails : Bool)
  | dir (name : String) (entries : List FsEntry)
deriving Repr

/-- `path.join(base, name)` restricted to the non-empty relative segments
used here. -/
def joinKey (base name : String) : String :=
  if base = "" then name else base ++ "/" ++ name

/-- `uploadFileToS3` from `src/scripts/upload-to-s3.ts`: the body is wrapped
in a try/catch whose catch logs the error and then rethrows it
(`throw error`), so a failing upload still propagates the exception to the
caller. The result is the upload outcome for the file. -/
def uploadFileToS3 (uploadFails : Bool) (s3Key : String) : Except String Unit :=
  if uploadFails then Except.error s3Key else Except.ok ()

/-- `uploadDirectoryToS3` from `src/scripts/upload-to-s3.ts`: iterates the
listing in order, recursing into subdirectories and awaiting
`uploadFileToS3` for each file, with no try/catch around the loop body —
an exception from one upload aborts the rest of the iteration. The first
component is the trace of S3 keys whose upload was attempted, the second
the overall outcome. -/
def uploadDirectoryToS3 : List FsEntry → String → List String × Except String Unit
  | [], _ => ([], Except.ok ())
  | FsEntry.file name uploadFails :: rest, base =>
    let key := joinKey base name
    match uploadFileToS3 uploadFails key with
    | Except.error e => ([key], Except.error e)
    | Except.ok _ =>
      let (t, r) := uploadDirectoryToS3 rest base
      (key :: t, r)
  | FsEntry.dir name sub :: rest, base =>
    match uploadDirectoryToS3 sub (joinKey base name) with
    | (t, Except.error e) => (t, Except.error e)
    | (t, Except.ok _) =>
      let (t2, r) := uploadDirectoryToS3 rest base
      (t ++ t2, r)
termination_by l _ => sizeOf l
decreasing_by all_goals simp_wf <;> omega

end Upload

namespace Articles

/-- The cover object of a CMS wire article. `url` is the flat field
(`cover.url`); `dataAttributesUrl` is the nested Strapi v4 field
(`cover.data.attributes.url`), read only by `fetchArticleBySlug`'s
fallback chain. An absent field is `none`. -/
structure StrapiCover where
  url : Option String
  dataAttributesUrl : Option String
deriving Repr, DecidableEq

/-- The category object of a CMS wire article: the flat fields
`id`/`name`/`slug` (each possibly absent on the wire), and `hasData`,
the truthiness of the nested `category.data` object which
`fetchArticleBySlug` tests. Ids are strings, as declared in the local
`Category` interface. -/
structure StrapiCategory where
  id : Option String
  name : Option String
  slug : Option String
  hasData : Bool
deriving Repr, DecidableEq

/-- One article as delivered by the CMS (`data` array element). -/
structure StrapiArticle where
  id : String
  title : String
  description : String
  content : String
  slug : String
  publishedAt : String
  cover : Option StrapiCover
  category : Option StrapiCategory
deriving Repr, DecidableEq

/-- A CMS HTTP response as the fetch functions see it: `ok`/`status` of the
fetch, and the `data` field of the JSON (`none` when absent, which makes
`data.data.map` throw). -/
structure StrapiResponse where
  ok : Bool
  status : Nat
  data : Option (List StrapiArticle)
deriving Repr, DecidableEq

/-- The local `Category` shape as actually produced by the mapping code:
each field is copied from the wire article and may therefore be absent
(`undefined`), even though the declared TypeScript interface requires all
three. -/
structure Category where
  id : Option String
  name : Option String
  slug : Option String
deriving Repr, DecidableEq

/-- The local `Cover` shape: the mapping always sets `url`. -/
structure Cover where
  url : String
deriving Repr, DecidableEq

/-- The local `Article` shape produced by the mapping code. -/
structure Article where
  id : String
  title : String
  description : String
  content : String
  slug : String
  publishedAt : String
  cover : Cover
  category : Option Category
deriving Repr, DecidableEq

/-- `article.cover?.url || '/placeholder.jpg'` from `fetchArticles`:
optional chaining then JavaScript `||` (an empty string also falls through
to the placeholder). -/
def coverUrlFlat (cover : Option StrapiCover) : String :=
  match cover with
  | some c => (jsOr c.url (some "/placeholder.jpg")).getD "/placeholder.jpg"
  | none => "/placeholder.jpg"

/-- The per-article mapping inside `fetchArticles`'s `data.data.map`:
defaults the cover URL to the placeholder and maps `category` to a
populated object when present, `null` otherwise. -/
def mapArticle (a : StrapiArticle) : Article :=
  { id := a.id
    title := a.title
    description := a.description
    content := a.content
    slug := a.slug
    publishedAt := a.publishedAt
    cover := ⟨coverUrlFlat a.cover⟩
    category := match a.category with
      | some c => some ⟨c.id, c.name, c.slug⟩
      | none => none }

/-- `fetchArticles` from `src/app/lib/api/articles.ts`: throws on a non-ok
response or an absent `data` field, but the surrounding catch logs and
returns `[]`; otherwise maps each wire article with the defaulting
transformation. -/
def fetchArticles (resp : StrapiResponse) : List Article :=
  if ¬ resp.ok then []
  else match resp.data with
    | none => []
    | some l => l.map mapArticle

/-- The cover chain of `fetchArticleBySlug`:
`article.cover?.url || article.cover?.data?.attributes?.url || '/placeholder.jpg'`. -/
def coverUrlDual (cover : Option StrapiCover) : String :=
  match cover with
  | some c =>
    (jsOr c.url (jsOr c.dataAttributesUrl (some "/placeholder.jpg"))).getD
      "/placeholder.jpg"
  | none => "/placeholder.jpg"

/-- `fetchArticleBySlug` from `src/app/lib/api/articles.ts`: returns `null`
on a non-ok response, an absent `data` field, or an empty `data` array;
otherwise maps `data.data[0]`, defaulting the cover through the dual-shape
chain. Its category mapping guards on `article.category?.data` but then
copies the flat `article.category.id/name/slug` fields. -/
def fetchArticleBySlug (resp : StrapiResponse) : Option Article :=
  if ¬ resp.ok then none
  else match resp.data with
    | none => none
    | some [] => none
    | some (a :: _) =>
      some
        { id := a.id
          title := a.title
          description := a.description
          content := a.content
          slug := a.slug
          publishedAt := a.publishedAt
          cover := ⟨coverUrlDual a.cover⟩
          category := match a.category with
            | some c => if c.hasData then some ⟨c.id, c.name, c.slug⟩ else none
            | none => none }

/-- A produced category is fully populated when all three fields are
present. -/
def fullyPopulated (c : Category) : Bool :=
  c.id.isSome && c.name.isSome && c.slug.isSome

/-- The claimed category invariant: `null` or fully populated. -/
def categoryInvariant : Option Category → Bool
  | none => true
  | some c => fullyPopulated c

end Articles

/-!
## Theorems
-/

/-- C2: for every GET request to the revalidation endpoint whose `secret`
query parameter is absent or differs from the configured
`REVALIDATION_SECRET`, the response has HTTP status 401, and no such
execution produces a response with `revalidated:true` (the 401 response
carries no `revalidated` field at all), whatever the framework
revalidation call would have done. -/
theorem revalidate_invalid_secret_401 (env : Revalidate.Env)
    (r : Revalidate.Request) (rf : Option String)
    (hbad : r.secret = none ∨ r.secret ≠ env.revalidationSecret) :
    (Revalidate.GET env r rf).1.status = 401 ∧
    (Revalidate.GET env r rf).1.revalidated ≠ some true := by
  have hinvalid : Revalidate.isValidRequest env r = false := by
    unfold Revalidate.isValidRequest
    rcases hbad with h | h
    · simp [h, truthy]
    · by_cases hc : truthy env.revalidationSecret
      · by_cases hs : truthy r.secret
        · simp [hc, hs, h]
        · simp [hc, hs]
      · simp [hc]
  unfold Revalidate.GET
  simp [hinvalid]

/-- Witness for C2 at a concrete request: configured secret `"s"`, supplied
secret `"bad"`. -/
theorem revalidate_invalid_secret_401_witness :
    (Revalidate.GET ⟨some "s"⟩ ⟨some "bad", some "/news"⟩ none).1.status = 401 ∧
    (Revalidate.GET ⟨some "s"⟩ ⟨some "bad", some "/news"⟩ none).1.revalidated ≠
      some true :=
  revalidate_invalid_secret_401 ⟨some "s"⟩ ⟨some "bad", some "/news"⟩ none
    (by decide)

/-- C3 (counterexample): the claim "the response's `path` field equals the
same `p` that was requested" fails for the empty path parameter: with a
valid secret and `path=""` the handler echoes `"/"`, not `""`, because
`searchParams.get('path') || '/'` treats the empty string as absent. -/
theorem revalidate_empty_path_not_echoed :
    (Revalidate.GET ⟨some "s"⟩ ⟨some "s", some ""⟩ none).1.revalidated =
      some true ∧
    (Revalidate.GET ⟨some "s"⟩ ⟨some "s", some ""⟩ none).1.path = some "/" ∧
    (some "/" : Option String) ≠ some "" := by
  decide

/-- C3 (amended): for every GET request carrying a secret that validates
and a non-empty path parameter `p`, if the framework revalidation call does
not throw, the response has `revalidated:true` and its `path` field equals
the requested `p`. -/
theorem revalidate_valid_secret_echoes_path (env : Revalidate.Env)
    (r : Revalidate.Request) (p : String)
    (hvalid : Revalidate.isValidRequest env r = true)
    (hp : r.path = some p) (hne : p ≠ "") :
    (Revalidate.GET env r none).1.revalidated = some true ∧
    (Revalidate.GET env r none).1.path = some p := by
  unfold Revalidate.GET
  simp [hvalid, hp, hne]

/-- Witness for the amended C3: secret `"s"`, path `"/news"`. -/
theorem revalidate_valid_secret_echoes_path_witness :
    (Revalidate.GET ⟨some "s"⟩ ⟨some "s", some "/news"⟩ none).1.revalidated =
      some true ∧
    (Revalidate.GET ⟨some "s"⟩ ⟨some "s", some "/news"⟩ none).1.path =
      some "/news" :=
  revalidate_valid_secret_echoes_path ⟨some "s"⟩ ⟨some "s", some "/news"⟩
    "/news" (by decide) rfl (by decide)

/-- C4 (counterexample): the claim fails on the app-router revalidation
endpoint: with a valid secret and no `path` parameter, `GET` of
`src/app/api/revalidate/route.ts` does not reject — it defaults the path to
`"/"`, performs the revalidation, and answers 200 with
`revalidated:true`. -/
theorem approute_missing_path_revalidates :
    (Revalidate.GET ⟨some "s"⟩ ⟨some "s", none⟩ none).1.status = 200 ∧
    (Revalidate.GET ⟨some "s"⟩ ⟨some "s", none⟩ none).1.revalidated =
      some true ∧
    (Revalidate.GET ⟨some "s"⟩ ⟨some "s", none⟩ none).2 = ["/"] := by
  decide

/-- C4 (amended): with a valid secret and a missing (or empty) `path`, the
pages-router handler (`src/pages/api/revalidate.ts`) answers 400
`"Path is required"` and performs no revalidation, while the app-router
GET endpoint instead defaults the path to `"/"` and revalidates it,
answering `revalidated:true`. -/
theorem missing_path_rejected_pages_handler (env : Revalidate.Env)
    (req : PagesRevalidate.ApiRequest) (rf : Option String)
    (r : Revalidate.Request)
    (hsec : req.secret = env.revalidationSecret) (hpath : req.path = none)
    (hvalid : Revalidate.isValidRequest env r = true) (hp : r.path = none) :
    (PagesRevalidate.handler env req rf).1.status = 400 ∧
    (PagesRevalidate.handler env req rf).2 = [] ∧
    (Revalidate.GET env r none).1.revalidated = some true ∧
    (Revalidate.GET env r none).1.path = some "/" ∧
    (Revalidate.GET env r none).2 = ["/"] := by
  refine ⟨?_, ?_, ?_, ?_, ?_⟩ <;>
    [skip; skip; unfold Revalidate.GET; unfold Revalidate.GET;
     unfold Revalidate.GET] <;>
    first
      | (unfold PagesRevalidate.handler; simp [hsec, hpath, truthy])
      | simp [hvalid, hp]

/-- Witness for the amended C4: secret `"s"` configured and supplied, no
path on either handler. -/
theorem missing_path_rejected_pages_handler_witness :
    (PagesRevalidate.handler ⟨some "s"⟩ ⟨some "s", none⟩ none).1.status = 400 ∧
    (PagesRevalidate.handler ⟨some "s"⟩ ⟨some "s", none⟩ none).2 = [] ∧
    (Revalidate.GET ⟨some "s"⟩ ⟨some "s", none⟩ none).1.revalidated =
      some true ∧
    (Revalidate.GET ⟨some "s"⟩ ⟨some "s", none⟩ none).1.path = some "/" ∧
    (Revalidate.GET ⟨some "s"⟩ ⟨some "s", none⟩ none).2 = ["/"] :=
  missing_path_rejected_pages_handler ⟨some "s"⟩ ⟨some "s", none⟩ none
    ⟨some "s", none⟩ rfl rfl (by decide) rfl

/-- C10: both token checks fail closed when unconfigured: with
`REVALIDATION_SECRET` unset, `isValidRequest` returns `false` for every
request (and the GET handler answers 401); with `WEBHOOK_TOKEN` unset,
`validateWebhook` returns `false` for every request and every `NODE_ENV`
mode. -/
theorem unset_env_tokens_fail_closed (env1 : Revalidate.Env)
    (r1 : Revalidate.Request) (rf : Option String) (env2 : Webhook.Env)
    (r2 : Webhook.Request) (h1 : env1.revalidationSecret = none)
    (h2 : env2.webhookToken = none) :
    Revalidate.isValidRequest env1 r1 = false ∧
    (Revalidate.GET env1 r1 rf).1.status = 401 ∧
    Webhook.validateWebhook env2 r2 = false := by
  have hinv : Revalidate.isValidRequest env1 r1 = false := by
    unfold Revalidate.isValidRequest
    simp [h1, truthy]
  refine ⟨hinv, ?_, ?_⟩
  · unfold Revalidate.GET
    simp [hinv]
  · unfold Webhook.validateWebhook
    simp [h2, truthy]

/-- Witness for C10: both environment variables unset, a request supplying
a token anyway, webhook in development mode. -/
theorem unset_env_tokens_fail_closed_witness :
    Revalidate.isValidRequest ⟨none⟩ ⟨some "guess", some "/"⟩ = false ∧
    (Revalidate.GET ⟨none⟩ ⟨some "guess", some "/"⟩ none).1.status = 401 ∧
    Webhook.validateWebhook ⟨none, some "development"⟩
      ⟨some "guess", none, none, none, none⟩ = false :=
  unset_env_tokens_fail_closed ⟨none⟩ ⟨some "guess", some "/"⟩ none
    ⟨none, some "development"⟩ ⟨some "guess", none, none, none, none⟩ rfl rfl

/-- C1: every webhook POST that passes token validation outside development
mode, whose body has one of the four `entry.*` events, model `"article"`,
and entry slug `"x"`, gets a response with `success:true`,
`revalidated:true`, and output paths containing `"/"`, `"/news"` and
`"/news/x"`. -/
theorem webhook_article_event_includes_paths (env : Webhook.Env)
    (r : Webhook.Request) (b : Webhook.WebhookBody) (e : Webhook.Entry)
    (hprod : env.nodeEnv ≠ some "development")
    (hvalid : Webhook.validateWebhook env r = true)
    (hbody : r.body = some b)
    (hevent : b.event = some "entry.publish" ∨ b.event = some "entry.create" ∨
              b.event = some "entry.update" ∨ b.event = some "entry.unpublish")
    (hmodel : b.model = some "article")
    (hentry : b.entry = some e) (hslug : e.slug = some "x") :
    (Webhook.POST env r).1.success = some true ∧
    (Webhook.POST env r).1.revalidated = some true ∧
    ∃ ps, (Webhook.POST env r).1.paths = some ps ∧
      "/" ∈ ps ∧ "/news" ∈ ps ∧ "/news/x" ∈ ps := by
  have hslugval : Webhook.articleSlugOf b = "x" := by
    simp [Webhook.articleSlugOf, hentry, hslug]
  have hcond : (b.event = some "entry.create" ∨ b.event = some "entry.update" ∨
      b.event = some "entry.publish" ∨ b.event = some "entry.unpublish") ∧
      (b.model = some "article" ∨ b.model = some "articles") := by
    refine ⟨?_, Or.inl hmodel⟩
    rcases hevent with h | h | h | h <;> simp [h]
  unfold Webhook.POST
  simp only [hvalid, Bool.not_true, Bool.false_eq_true, if_false, hbody,
    hslugval, if_neg hprod, if_pos hcond]
  refine ⟨rfl, rfl, ⟨["/", "/news", "/news/x"], ?_, by simp, by simp, by simp⟩⟩
  simp

/-- Witness for C1: token `"t"` configured and supplied, production mode,
an `entry.publish` event on model `"article"` with slug `"x"`. -/
theorem webhook_article_event_includes_paths_witness :
    (Webhook.POST ⟨some "t", some "production"⟩
      ⟨some "t", none, none, none,
        some ⟨some "entry.publish", some "article", some ⟨some "x"⟩⟩⟩).1.success =
      some true ∧
    (Webhook.POST ⟨some "t", some "production"⟩
      ⟨some "t", none, none, none,
        some ⟨some "entry.publish", some "article", some ⟨some "x"⟩⟩⟩).1.revalidated =
      some true ∧
    ∃ ps,
      (Webhook.POST ⟨some "t", some "production"⟩
        ⟨some "t", none, none, none,
          some ⟨some "entry.publish", some "article", some ⟨some "x"⟩⟩⟩).1.paths =
        some ps ∧ "/" ∈ ps ∧ "/news" ∈ ps ∧ "/news/x" ∈ ps :=
  webhook_article_event_includes_paths ⟨some "t", some "production"⟩
    ⟨some "t", none, none, none,
      some ⟨some "entry.publish", some "article", some ⟨some "x"⟩⟩⟩
    ⟨some "entry.publish", some "article", some ⟨some "x"⟩⟩ ⟨some "x"⟩
    (by decide) (by decide) rfl (Or.inl rfl) rfl rfl rfl

/-- C6: every webhook POST that passes token validation outside development
mode, whose readable body carries a model that is neither `"article"` nor
`"articles"`, gets a 200 response with `success:true` and causes no
`revalidatePath`/`revalidateTag` call at all. -/
theorem webhook_unrecognized_model_no_invalidation (env : Webhook.Env)
    (r : Webhook.Request) (b : Webhook.WebhookBody)
    (hprod : env.nodeEnv ≠ some "development")
    (hvalid : Webhook.validateWebhook env r = true)
    (hbody : r.body = some b)
    (hmodel : b.model ≠ some "article" ∧ b.model ≠ some "articles") :
    (Webhook.POST env r).1.status = 200 ∧
    (Webhook.POST env r).1.success = some true ∧
    (Webhook.POST env r).2 = [] := by
  have hcond : ¬ ((b.event = some "entry.create" ∨ b.event = some "entry.update" ∨
      b.event = some "entry.publish" ∨ b.event = some "entry.unpublish") ∧
      (b.model = some "article" ∨ b.model = some "articles")) := by
    rintro ⟨-, hm | hm⟩
    · exact hmodel.1 hm
    · exact hmodel.2 hm
  unfold Webhook.POST
  simp only [hvalid, Bool.not_true, Bool.false_eq_true, if_false, hbody,
    if_neg hprod, if_neg hcond]
  exact ⟨rfl, rfl, rfl⟩

/-- Witness for C6: an `entry.publish` event on model `"category"`. -/
theorem webhook_unrecognized_model_no_invalidation_witness :
    (Webhook.POST ⟨some "t", some "production"⟩
      ⟨some "t", none, none, none,
        some ⟨some "entry.publish", some "category", none⟩⟩).1.status = 200 ∧
    (Webhook.POST ⟨some "t", some "production"⟩
      ⟨some "t", none, none, none,
        some ⟨some "entry.publish", some "category", none⟩⟩).1.success =
      some true ∧
    (Webhook.POST ⟨some "t", some "production"⟩
      ⟨some "t", none, none, none,
        some ⟨some "entry.publish", some "category", none⟩⟩).2 = [] :=
  webhook_unrecognized_model_no_invalidation ⟨some "t", some "production"⟩
    ⟨some "t", none, none, none,
      some ⟨some "entry.publish", some "category", none⟩⟩
    ⟨some "entry.publish", some "category", none⟩
    (by decide) (by decide) rfl (by decide)

/-- C5 (counterexample): the claim that one failed upload leaves the
remaining files of the batch attempted fails: in a listing where
`a.html`'s upload throws and `b.html` follows it, only `a.html` is
attempted — `uploadFileToS3`'s catch rethrows and the directory loop has no
catch, so the batch stops. -/
theorem upload_failed_file_stops_batch :
    (Upload.uploadDirectoryToS3
      [Upload.FsEntry.file "a.html" true, Upload.FsEntry.file "b.html" false]
      "") = (["a.html"], Except.error "a.html") ∧
    "b.html" ∉ (Upload.uploadDirectoryToS3
      [Upload.FsEntry.file "a.html" true, Upload.FsEntry.file "b.html" false]
      "").1 := by
  have h : Upload.uploadDirectoryToS3
      [Upload.FsEntry.file "a.html" true, Upload.FsEntry.file "b.html" false]
      "" = (["a.html"], Except.error "a.html") := by
    simp [Upload.uploadDirectoryToS3, Upload.uploadFileToS3, Upload.joinKey]
  refine ⟨h, ?_⟩
  rw [h]
  decide

/-- C5 (amended): each file upload is wrapped in a per-file try/catch that
logs and rethrows, and the directory loop does not catch, so whenever a
file's upload fails the remaining entries of the batch are not attempted:
the trace of attempted keys stops at the failed file, whatever follows
it. -/
theorem upload_failure_aborts_remaining (name : String)
    (rest : List Upload.FsEntry) (base : String) :
    Upload.uploadDirectoryToS3 (Upload.FsEntry.file name true :: rest) base =
      ([Upload.joinKey base name],
        Except.error (Upload.joinKey base name)) := by
  simp [Upload.uploadDirectoryToS3, Upload.uploadFileToS3]

/-- `leads` implies `occursIn`: a prefix occurrence is an occurrence. -/
theorem occursIn_of_leads (hay needle : List Char)
    (h : Upload.leads hay needle = true) :
    Upload.occursIn hay needle = true := by
  cases hay with
  | nil =>
    cases needle with
    | nil => simp [Upload.occursIn]
    | cons b bs => simp [Upload.leads] at h
  | cons a t =>
    unfold Upload.occursIn
    simp [h]

/-- C7: in the upload script's cache-control assignment, every file whose
content type resolves to HTML (extension `.html`) is assigned
`"public, max-age=0, must-revalidate"`, and every file whose content type
is an image type (starts with `"image/"`) is assigned
`"public, max-age=31536000, immutable"`. -/
theorem upload_cache_control_policies :
    (∀ p, Upload.extOf p = "html" →
      Upload.cacheControl (Upload.contentTypeOf p) =
        "public, max-age=0, must-revalidate") ∧
    (∀ p, Upload.strLeads (Upload.contentTypeOf p) "image/" = true →
      Upload.cacheControl (Upload.contentTypeOf p) =
        "public, max-age=31536000, immutable") := by
  constructor
  · intro p hext
    have hct : Upload.contentTypeOf p = "text/html" := by
      simp [Upload.contentTypeOf, Upload.mimeLookup, hext]
    rw [hct]
    unfold Upload.cacheControl
    have h1 : Upload.strContains "text/html" "image/" = false := by decide
    have h2 : Upload.strContains "text/html" "text/html" = true := by decide
    simp [h1, h2]
  · intro p himg
    have hocc : Upload.strContains (Upload.contentTypeOf p) "image/" = true :=
      occursIn_of_leads _ _ himg
    unfold Upload.cacheControl
    simp [hocc]

/-- Witness for C7: `index.html` gets the no-cache policy, `logo.png` the
immutable one. -/
theorem upload_cache_control_policies_witness :
    Upload.cacheControl (Upload.contentTypeOf "index.html") =
      "public, max-age=0, must-revalidate" ∧
    Upload.cacheControl (Upload.contentTypeOf "logo.png") =
      "public, max-age=31536000, immutable" :=
  ⟨upload_cache_control_policies.1 "index.html" (by decide),
   upload_cache_control_policies.2 "logo.png" (by decide)⟩

/-- C8: for every CMS response whose `data` field is an empty list,
`fetchArticles` returns the empty collection (and, being total here, does
not throw: the code's catch already converts any throw into `[]`). -/
theorem fetchArticles_empty_data (resp : Articles.StrapiResponse)
    (hok : resp.ok = true) (hdata : resp.data = some []) :
    Articles.fetchArticles resp = [] := by
  unfold Articles.fetchArticles
  simp [hok, hdata]

/-- Witness for C8: an ok response with `data: []`. -/
theorem fetchArticles_empty_data_witness :
    Articles.fetchArticles ⟨true, 200, some []⟩ = [] :=
  fetchArticles_empty_data ⟨true, 200, some []⟩ rfl rfl

/-- C9: evaluated at the failing input. When the CMS sends the nested
category shape (`category.data` present, no flat `id`/`name`/`slug`
fields), `fetchArticleBySlug` produces an article whose category is
`{id: undefined, name: undefined, slug: undefined}` — neither `null` nor
fully populated, violating the claimed defaulting invariant (and the
declared `Category` interface). -/
theorem fetchArticleBySlug_nested_category_violates_invariant :
    (Articles.fetchArticleBySlug
      ⟨true, 200, some [⟨"1", "T", "D", "C", "x", "2024-01-01", none,
        some ⟨none, none, none, true⟩⟩]⟩).map Articles.Article.category =
      some (some ⟨none, none, none⟩) ∧
    Articles.categoryInvariant (some ⟨none, none, none⟩) = false := by
  decide
